import Mathlib

/-!
Verification development for the osml-tile-server viewpoint lifecycle.

The definitions below are a shallow embedding of the Python source under
src/src/aws/osml/tile_server: the viewpoint data model (viewpoint/models.py),
the status check and the HTTP handlers (viewpoint/routers.py), the status
store built on DynamoDB (viewpoint/database.py and services/database.py),
the ingestion worker (viewpoint/worker.py) and the tile factory pool
(utils/tile_server_utils.py).  External collaborators (DynamoDB, S3, SQS,
GDAL) are modelled by their documented interface behaviour: a DynamoDB
table is a list of records in scan order, S3 download outcomes are an
explicit event stream, and the GDAL tile factory is an opaque handle.
-/

namespace TileServer

/-- Status options for a viewpoint, from ViewpointStatus in viewpoint/models.py. -/
inductive ViewpointStatus where
  | NOT_FOUND
  | REQUESTED
  | UPDATING
  | READY
  | DELETED
  | FAILED
  deriving DecidableEq, Repr

/-- API operation names associated with a viewpoint, from ViewpointApiNames in
viewpoint/models.py. -/
inductive ViewpointApiNames where
  | update
  | describe
  | metadata
  | bounds
  | info
  | tile
  | preview
  | crop
  | statistics
  deriving DecidableEq, Repr

/-- Range adjustment options, from RangeAdjustmentType in the osml gdal package. -/
inductive RangeAdjustmentType where
  | NONE
  | MINMAX
  | DRA
  deriving DecidableEq, Repr

/-- The viewpoint record, from ViewpointModel in viewpoint/models.py.
Integers are Python arbitrary-precision ints, so they are embedded as Int. -/
structure ViewpointModel where
  viewpoint_id : String
  viewpoint_name : String
  viewpoint_status : ViewpointStatus
  bucket_name : String
  object_key : String
  tile_size : Int
  range_adjustment : RangeAdjustmentType
  local_object_path : Option String
  error_message : Option String
  expire_time : Option Int
  deriving DecidableEq, Repr

/-- The two distinguishable rejections raised by the status check in
ViewpointRouter, carrying the HTTP status code of the HTTPException. -/
inductive StatusRejection where
  | alreadyDeleted (httpStatus : Int)
  | notReady (httpStatus : Int)
  deriving DecidableEq, Repr

/-- Embedding of ViewpointRouter.validate_viewpoint_status
(viewpoint/routers.py lines 696 to 715).  The Python function raises an
HTTPException for DELETED (404) and for REQUESTED (400) and returns None
otherwise; here the raised rejection is returned as an Option value. -/
def validate_viewpoint_status (current_status : ViewpointStatus)
    (_api_operation : ViewpointApiNames) : Option StatusRejection :=
  if current_status = ViewpointStatus.DELETED then
    some (StatusRejection.alreadyDeleted 404)
  else if current_status = ViewpointStatus.REQUESTED then
    some (StatusRejection.notReady 400)
  else
    none

/-- Result of the tile endpoint before any pixel data is produced: either the
negative-z rejection, a status-check rejection, or the window request that is
handed to the tile factory. -/
inductive TileRequestResult where
  | badRequest (httpStatus : Int)
  | statusRejected (r : StatusRejection)
  | tileRequest (src_window : List Int) (output_size : Int × Int)
  deriving DecidableEq, Repr

/-- Embedding of the get_image_tile handler (viewpoint/routers.py lines 352
to 411) up to the call of tile_factory.create_encoded_tile: the handler
rejects z below 0 with a 400, then validates the viewpoint status, then
computes src_tile_size = 2 ** z * tile_size and requests the source window
[x * src_tile_size, y * src_tile_size, src_tile_size, src_tile_size] with
output size (tile_size, tile_size). -/
def get_image_tile (z x y : Int) (item : ViewpointModel) : TileRequestResult :=
  if z < 0 then
    TileRequestResult.badRequest 400
  else
    match validate_viewpoint_status item.viewpoint_status ViewpointApiNames.tile with
    | some r => TileRequestResult.statusRejected r
    | none =>
      let tile_size := item.tile_size
      let src_tile_size : Int := 2 ^ z.toNat * tile_size
      TileRequestResult.tileRequest
        [x * src_tile_size, y * src_tile_size, src_tile_size, src_tile_size]
        (tile_size, tile_size)

/-- Python str.split() splits on these whitespace characters (ASCII subset;
the ids in play are ASCII). -/
def isPythonWhitespace (c : Char) : Bool :=
  c = ' ' || c = '\t' || c = '\n' || c = '\r' || c = '\x0b' || c = '\x0c'

/-- The characters urllib.parse.quote never encodes (ALWAYS_SAFE, with
safe set to the empty string): ASCII letters, digits, and the marks
underscore, dot, hyphen and tilde. -/
def isQuoteSafeByte (b : Nat) : Bool :=
  (65 ≤ b && b ≤ 90) || (97 ≤ b && b ≤ 122) || (48 ≤ b && b ≤ 57) ||
    b = 95 || b = 46 || b = 45 || b = 126

/-- Upper-case hexadecimal digit, as used by urllib.parse.quote. -/
def hexDigitChar (n : Nat) : Char :=
  if n < 10 then Char.ofNat (48 + n) else Char.ofNat (55 + n)

/-- UTF-8 encoding of one code point as a list of byte values; urllib
percent-encodes the UTF-8 bytes of the string. -/
def utf8Bytes (c : Char) : List Nat :=
  let n := c.toNat
  if n < 128 then [n]
  else if n < 2048 then [192 + n / 64, 128 + n % 64]
  else if n < 65536 then [224 + n / 4096, 128 + (n / 64) % 64, 128 + n % 64]
  else [240 + n / 262144, 128 + (n / 4096) % 64, 128 + (n / 64) % 64, 128 + n % 64]

/-- Percent-encoding of one byte, pass-through when the byte is in the safe
set. -/
def quoteByte (b : Nat) : String :=
  if isQuoteSafeByte b then String.singleton (Char.ofNat b)
  else String.mk ['%', hexDigitChar (b / 16), hexDigitChar (b % 16)]

/-- Embedding of urllib.parse.quote(s, safe="") on the UTF-8 bytes of s. -/
def urlQuote (s : String) : String :=
  String.join ((s.data.flatMap utf8Bytes).map quoteByte)

/-- Embedding of ViewpointRouter.validate_viewpoint_id
(viewpoint/routers.py lines 717 to 731): join the whitespace-split pieces of
the id, percent-encode the result with an empty safe set, and accept the id
exactly when it equals that encoding. -/
def validate_viewpoint_id (viewpoint_id : String) : Bool :=
  let no_whitespace := String.mk (viewpoint_id.data.filter (fun c => !isPythonWhitespace c))
  let encoded := urlQuote no_whitespace
  viewpoint_id = encoded

/-- A DynamoDB table holding viewpoint records, embedded as the list of its
items in the stable scan order of the store.  Keys (viewpoint_id) are unique
in a real table. -/
abbrev DdbTable := List ViewpointModel

/-- Embedding of ViewpointStatusTable.get_viewpoint (database.py): a point
lookup by primary key.  DynamoDB GetItem returns the unique item with the
key, or no Item member when the key is absent (the handler turns that into
an exception, embedded here as none). -/
def get_viewpoint (table : DdbTable) (viewpoint_id : String) : Option ViewpointModel :=
  table.find? (fun r => r.viewpoint_id = viewpoint_id)

/-- DynamoDB PutItem semantics used by ViewpointStatusTable.create_viewpoint:
an unconditional put replaces the item with the same key when present and
inserts the item otherwise. -/
def put_item (table : DdbTable) (item : ViewpointModel) : DdbTable :=
  if table.any (fun r => r.viewpoint_id = item.viewpoint_id) then
    table.map (fun r => if r.viewpoint_id = item.viewpoint_id then item else r)
  else
    table ++ [item]

/-- The body of a create request, from ViewpointRequest in models.py (the
variant carrying the client-supplied viewpoint_id). -/
structure ViewpointRequest where
  viewpoint_id : String
  viewpoint_name : String
  bucket_name : String
  object_key : String
  tile_size : Int
  range_adjustment : RangeAdjustmentType
  deriving DecidableEq, Repr

/-- Result of the create-viewpoint handler: response status code and body,
the table after the call, and the queue (list of enqueued message payloads)
after the call. -/
structure CreateResult where
  statusCode : Int
  body : Option ViewpointModel
  table : DdbTable
  queue : List ViewpointModel
  deriving DecidableEq, Repr

/-- The new ViewpointModel built by the create handler (viewpoint/routers.py
lines 160 to 171): REQUESTED status, no local path, no error message, and
expire_time already set to the timestamp of now plus ServerConfig.ddb_ttl_days
days (passed in as expire_ts). -/
def requestedRecord (req : ViewpointRequest) (expire_ts : Int) : ViewpointModel :=
  { viewpoint_id := req.viewpoint_id
    viewpoint_name := req.viewpoint_name
    bucket_name := req.bucket_name
    object_key := req.object_key
    tile_size := req.tile_size
    range_adjustment := req.range_adjustment
    viewpoint_status := ViewpointStatus.REQUESTED
    local_object_path := none
    error_message := none
    expire_time := some expire_ts }

/-- Embedding of the create_viewpoint handler (viewpoint/routers.py lines 133
to 178).  The handler first looks the id up: when a record exists it is
returned with status 202 and nothing else happens.  Otherwise the id is
validated (422 on failure, before any persistence), and only then the new
REQUESTED record is built with expire_time set to now plus the configured
TTL in days, stored with put_item, and enqueued for the worker.  The
timestamp int(expire_time.timestamp()) is passed in as expire_ts. -/
def create_viewpoint_handler (req : ViewpointRequest) (expire_ts : Int)
    (table : DdbTable) (queue : List ViewpointModel) : CreateResult :=
  match get_viewpoint table req.viewpoint_id with
  | some existing =>
    { statusCode := 202, body := some existing, table := table, queue := queue }
  | none =>
    if !validate_viewpoint_id req.viewpoint_id then
      { statusCode := 422, body := none, table := table, queue := queue }
    else
      let new_viewpoint_request := requestedRecord req expire_ts
      { statusCode := 201
        body := some new_viewpoint_request
        table := put_item table new_viewpoint_request
        queue := queue ++ [new_viewpoint_request] }

/-- Position the scan after a DynamoDB ExclusiveStartKey: the items strictly
after the first item carrying the key, in scan order; the whole table when no
key is given. -/
def afterKey (esk : Option String) (table : DdbTable) : DdbTable :=
  match esk with
  | none => table
  | some k => (table.dropWhile (fun r => r.viewpoint_id ≠ k)).drop 1

/-- The filter expression used by get_viewpoints: viewpoint_status ne DELETED
(Attr("viewpoint_status").ne("DELETED")). -/
def notDeleted (r : ViewpointModel) : Bool :=
  r.viewpoint_status ≠ ViewpointStatus.DELETED

/-- One DynamoDB Scan response. -/
structure ScanResponse where
  items : List ViewpointModel
  lastEvaluatedKey : Option String
  deriving Repr

/-- DynamoDB Scan semantics as used by the status store: starting after the
ExclusiveStartKey, the scan examines at most Limit items (all remaining items
when no limit is given), applies the filter expression to the examined items
only, and reports a LastEvaluatedKey, the key of the last examined item,
exactly when examined items were cut off before the end of the table.  The
filter runs after the limit, so a page can hold fewer than Limit items and
the LastEvaluatedKey can belong to a filtered-out item. -/
def ddb_scan (table : DdbTable) (limit : Option Nat) (esk : Option String) : ScanResponse :=
  let remaining := afterKey esk table
  match limit with
  | none => { items := remaining.filter notDeleted, lastEvaluatedKey := none }
  | some k =>
    let page := remaining.take k
    { items := page.filter notDeleted
      lastEvaluatedKey :=
        if k < remaining.length then page.getLast?.map (fun r => r.viewpoint_id)
        else none }

/-- The list response of the status store, from ViewpointListResponse in
models.py. -/
structure ViewpointListResponse where
  items : List ViewpointModel
  next_token : Option String
  deriving Repr

/-- Embedding of ViewpointStatusTable.get_all_viewpoints (database.py lines
94 to 107): scan without a limit and keep following LastEvaluatedKey until
it is absent, concatenating the items.  With the scan model above a single
unlimited scan already returns everything, so the while loop collapses to
one call. -/
def get_all_viewpoints (table : DdbTable) (esk : Option String) : ViewpointListResponse :=
  { items := (ddb_scan table none esk).items, next_token := none }

/-- Embedding of ViewpointStatusTable.get_paged_viewpoints (database.py lines
109 to 120): one scan; the LastEvaluatedKey of the response, when present, is
returned to the caller as the continuation token. -/
def get_paged_viewpoints (table : DdbTable) (limit : Option Nat)
    (esk : Option String) : ViewpointListResponse :=
  let response := ddb_scan table limit esk
  { items := response.items, next_token := response.lastEvaluatedKey }

/-- Embedding of ViewpointStatusTable.get_viewpoints (database.py lines 63 to
92).  The Limit query parameter is added only when the limit argument is
truthy (so a limit of 0 behaves like no limit), the ExclusiveStartKey only
when a token is given; the paged variant runs whenever either parameter is
present. -/
def get_viewpoints (table : DdbTable) (limit : Option Nat)
    (next_token : Option String) : ViewpointListResponse :=
  let effLimit : Option Nat :=
    match limit with
    | some l => if l = 0 then none else some l
    | none => none
  if effLimit.isSome || next_token.isSome then
    get_paged_viewpoints table effLimit next_token
  else
    get_all_viewpoints table next_token

/-- Drive get_viewpoints with a fixed limit, feeding each returned token into
the next call until no token is returned, concatenating the items of every
page.  Fuel bounds the recursion; table.length + 1 is always enough. -/
def pagedLoop (table : DdbTable) (k : Nat) : Nat → Option String → List ViewpointModel
  | 0, _ => []
  | fuel + 1, tok =>
    let response := get_viewpoints table (some k) tok
    match response.next_token with
    | none => response.items
    | some t => response.items ++ pagedLoop table k fuel (some t)

/-- Embedding of ViewpointStatusTable.delete_viewpoint
(services/database.py lines 199 to 219): an unconditional DynamoDB
DeleteItem removes the item with the key when present and succeeds without
complaint when the key is absent; the function then returns the id.  The
HTTPException branches fire only when the underlying client raises, which it
does not do for an absent key. -/
def delete_viewpoint_store (table : DdbTable) (viewpoint_id : String) :
    String × DdbTable :=
  (viewpoint_id, table.filter (fun r => r.viewpoint_id ≠ viewpoint_id))

/-- Result of the delete and update viewpoint handlers. -/
inductive HandlerResult where
  | rejected (r : StatusRejection)
  | ok (item : ViewpointModel)
  deriving DecidableEq, Repr

/-- Embedding of the delete_viewpoint handler (viewpoint/routers.py lines 180
to 202): fetch the item, validate its status for the update operation, then
mark it DELETED, clear local_object_path, and set expire_time to the
timestamp of now plus one day (passed in as expire_ts); the updated record
is written back and returned. -/
def delete_viewpoint_handler (item : ViewpointModel) (expire_ts : Int) : HandlerResult :=
  match validate_viewpoint_status item.viewpoint_status ViewpointApiNames.update with
  | some r => HandlerResult.rejected r
  | none =>
    HandlerResult.ok
      { item with
        viewpoint_status := ViewpointStatus.DELETED
        local_object_path := none
        expire_time := some expire_ts }

/-- The body of an update request, from ViewpointUpdate in models.py. -/
structure ViewpointUpdate where
  viewpoint_id : String
  viewpoint_name : String
  tile_size : Int
  range_adjustment : RangeAdjustmentType
  deriving DecidableEq, Repr

/-- Embedding of the update_viewpoint handler (viewpoint/routers.py lines 204
to 221): fetch the item, validate its status for the update operation, then
replace name, tile size and range adjustment; every other field, expire_time
included, is carried over unchanged. -/
def update_viewpoint_handler (item : ViewpointModel) (req : ViewpointUpdate) : HandlerResult :=
  match validate_viewpoint_status item.viewpoint_status ViewpointApiNames.update with
  | some r => HandlerResult.rejected r
  | none =>
    HandlerResult.ok
      { item with
        viewpoint_name := req.viewpoint_name
        tile_size := req.tile_size
        range_adjustment := req.range_adjustment }

/-- Embedding of ViewpointWorker.update_status (worker.py lines 221 to
236): when the item reached the worker in FAILED state its expire_time is
set to now plus one day (passed in as expire_ts) and the status is left as
is; otherwise the status is set to READY and expire_time is left untouched.
The result is written back to the table. -/
def worker_update_status (item : ViewpointModel) (expire_ts : Int) : ViewpointModel :=
  if item.viewpoint_status = ViewpointStatus.FAILED then
    { item with expire_time := some expire_ts }
  else
    { item with viewpoint_status := ViewpointStatus.READY }

/-- What one call of ViewpointWorker.process_message does to the world:
which pipeline stages run, whether the status update is written to the
table, and whether the queue message is deleted. -/
structure ProcessOutcome where
  downloadAttempted : Bool
  pyramidAttempted : Bool
  metadataAttempted : Bool
  statusUpdateWritten : Bool
  messageDeleted : Bool
  deriving DecidableEq, Repr

/-- Embedding of ViewpointWorker.process_message (worker.py lines 200 to
219).  The worker parses the viewpoint snapshot out of the message body and
checks the status carried in that body: when it is not REQUESTED the worker
logs and returns, running no stage and leaving the message on the queue.
Otherwise it downloads, builds the pyramid, extracts metadata, writes the
status update and deletes the message.  The current status of the record in
the table (dbStatus) is passed in to show it plays no part: the code never
reads the table here. -/
def process_message (messageBody : ViewpointModel) (_dbStatus : ViewpointStatus) :
    ProcessOutcome :=
  if messageBody.viewpoint_status ≠ ViewpointStatus.REQUESTED then
    { downloadAttempted := false
      pyramidAttempted := false
      metadataAttempted := false
      statusUpdateWritten := false
      messageDeleted := false }
  else
    { downloadAttempted := true
      pyramidAttempted := true
      metadataAttempted := true
      statusUpdateWritten := true
      messageDeleted := true }

/-- Outcome of one S3 download attempt: success, a botocore ClientError
carrying the error code of the response, or any other exception.  The
string argument is str(err). -/
inductive S3Event where
  | success
  | clientError (code : String) (errText : String)
  | otherError (errText : String)
  deriving DecidableEq, Repr

/-- Python str.strip(): remove the whitespace characters at both ends of the
string. -/
def pyStrip (s : String) : String :=
  String.mk (((s.data.dropWhile isPythonWhitespace).reverse.dropWhile
    isPythonWhitespace).reverse)

/-- The error message built for a ClientError in the download loop
(worker.py lines 285 to 298): a 404 and a 403 add a detailed phrase naming
the bucket, every other code adds nothing, and the assembled f-string is
stripped of surrounding whitespace. -/
def clientErrorMessage (bucket : String) (code : String) (errText : String) : String :=
  let detailed_error :=
    if code = "404" then "The " ++ bucket ++ " bucket does not exist!"
    else if code = "403" then "You do not have permission to access " ++ bucket ++ " bucket!"
    else ""
  pyStrip ("Image Tile Server cannot process your S3 request! Error=" ++ errText
    ++ " " ++ detailed_error)

/-- The error message built for a generic exception on a given zero-based
attempt (worker.py lines 300 to 304). -/
def genericErrorMessage (viewpoint_id : String) (retry_count max_retries : Nat)
    (errText : String) : String :=
  "Attempt " ++ toString (retry_count + 1) ++ "/" ++ toString max_retries
    ++ ": Something went wrong!" ++ " Viewpoint_id: " ++ viewpoint_id
    ++ " | Error=" ++ errText

/-- The retry loop of ViewpointWorker.download_s3_file_to_local_tmp
(worker.py lines 255 to 309), with the outcome of attempt number i given by
events i.  The while condition retry_count lt max_retries is carried as the
structurally decreasing count of remaining iterations, remaining =
max_retries - retry_count; the loop exits when it reaches zero.  A
successful download clears status and message and leaves the loop; a
ClientError records a FAILED status with the client error message and
leaves the loop; any other exception records a FAILED status with the
generic message and moves on to the next attempt.  The accumulated
viewpoint_status and error_message are returned when the attempts run out. -/
def downloadLoop (bucket viewpoint_id : String) (events : Nat → S3Event)
    (max_retries : Nat) :
    Nat → Nat → Option ViewpointStatus → Option String →
      Option ViewpointStatus × Option String
  | 0, _, vs, em => (vs, em)
  | remaining + 1, retry_count, _, _ =>
    match events retry_count with
    | S3Event.success => (none, none)
    | S3Event.clientError code errText =>
      (some ViewpointStatus.FAILED, some (clientErrorMessage bucket code errText))
    | S3Event.otherError errText =>
      downloadLoop bucket viewpoint_id events max_retries
        remaining (retry_count + 1)
        (some ViewpointStatus.FAILED)
        (some (genericErrorMessage viewpoint_id retry_count max_retries errText))

/-- Embedding of ViewpointWorker.download_s3_file_to_local_tmp: the loop
starts at retry_count 0 with no status and no message; max_retries defaults
to 3. -/
def download_s3_file_to_local_tmp (bucket viewpoint_id : String)
    (events : Nat → S3Event) (max_retries : Nat := 3) :
    Option ViewpointStatus × Option String :=
  downloadLoop bucket viewpoint_id events max_retries max_retries 0 none none

/-- The tile factory pool of utils/tile_server_utils.py, embedded with
opaque handle names: current_inventory is the idle list in order,
total_inventory counts every factory ever opened, and next_handle is a
fresh-name supply standing for constructing a new GDALTileFactory object. -/
structure TileFactoryPool where
  current_inventory : List Nat
  total_inventory : Nat
  next_handle : Nat
  deriving DecidableEq, Repr

/-- Embedding of TileFactoryPool.checkout (tile_server_utils.py lines 96 to
127): pop the first idle handle when the inventory is not empty; otherwise
open a new factory (a fresh handle name) and count it in total_inventory. -/
def checkout (p : TileFactoryPool) : Nat × TileFactoryPool :=
  match p.current_inventory with
  | tf :: rest => (tf, { p with current_inventory := rest })
  | [] =>
    (p.next_handle,
      { p with
        total_inventory := p.total_inventory + 1
        next_handle := p.next_handle + 1 })

/-- Embedding of TileFactoryPool.checkin (tile_server_utils.py lines 129 to
138): append the handle to the idle list; nothing is ever closed or
discarded. -/
def checkin (p : TileFactoryPool) (tf : Nat) : TileFactoryPool :=
  { p with current_inventory := p.current_inventory ++ [tf] }

/-- A sample READY viewpoint record used to evaluate the handlers at concrete
inputs. -/
def sampleReadyViewpoint : ViewpointModel :=
  { viewpoint_id := "vp1"
    viewpoint_name := "sample"
    viewpoint_status := ViewpointStatus.READY
    bucket_name := "bucket"
    object_key := "image.tif"
    tile_size := 256
    range_adjustment := RangeAdjustmentType.NONE
    local_object_path := some "/tmp/viewpoint/vp1/image.tif"
    error_message := none
    expire_time := some 1700000000 }

/-- A sample FAILED viewpoint record. -/
def sampleFailedViewpoint : ViewpointModel :=
  { sampleReadyViewpoint with
    viewpoint_status := ViewpointStatus.FAILED
    error_message := some "Unable to create sample tile for viewpoint: vp1!" }

/-- A sample create request with a URL-safe id. -/
def sampleRequest : ViewpointRequest :=
  { viewpoint_id := "vp2"
    viewpoint_name := "sample2"
    bucket_name := "bucket"
    object_key := "image.tif"
    tile_size := 256
    range_adjustment := RangeAdjustmentType.NONE }

/-- A create request whose id contains whitespace, hence fails the id
validation. -/
def badIdRequest : ViewpointRequest :=
  { sampleRequest with viewpoint_id := "bad id" }

/-- A stored record under the whitespace-carrying id of badIdRequest. -/
def badIdRecord : ViewpointModel :=
  { sampleReadyViewpoint with viewpoint_id := "bad id" }

/-- Three records in scan order: one READY and two DELETED, exercising the
interaction of the scan limit with the DELETED filter. -/
def recA : ViewpointModel :=
  { sampleReadyViewpoint with viewpoint_id := "a" }

/-- Second record of the three-record table: soft-deleted. -/
def recB : ViewpointModel :=
  { sampleReadyViewpoint with
    viewpoint_id := "b"
    viewpoint_status := ViewpointStatus.DELETED }

/-- Third record of the three-record table: soft-deleted. -/
def recC : ViewpointModel :=
  { sampleReadyViewpoint with
    viewpoint_id := "c"
    viewpoint_status := ViewpointStatus.DELETED }

/-- Attempt outcomes where the first S3 attempt raises a ClientError with a
code that is neither 404 nor 403 and every later attempt would succeed. -/
def retriableThenSuccess : Nat → S3Event :=
  fun i => if i = 0 then S3Event.clientError "500" "boom" else S3Event.success

/-- Attempt outcomes where every S3 attempt raises a ClientError with code
404. -/
def always404 : Nat → S3Event :=
  fun _ => S3Event.clientError "404" "oops"

/-- Attempt outcomes where every S3 attempt succeeds. -/
def alwaysSuccess : Nat → S3Event :=
  fun _ => S3Event.success

/-- A pool holding two idle handles. -/
def samplePool : TileFactoryPool :=
  { current_inventory := [10, 20], total_inventory := 2, next_handle := 30 }

/-- The full-pipeline outcome of the worker on a REQUESTED message body. -/
def allStagesRun : ProcessOutcome :=
  { downloadAttempted := true
    pyramidAttempted := true
    metadataAttempted := true
    statusUpdateWritten := true
    messageDeleted := true }

/-- The skip outcome of the worker on a message body that is not REQUESTED. -/
def noStageRun : ProcessOutcome :=
  { downloadAttempted := false
    pyramidAttempted := false
    metadataAttempted := false
    statusUpdateWritten := false
    messageDeleted := false }

/- Theorems: helper lemmas and the statements settling the claims. -/

/-- C1 counterexample: the claim says a tile request against a FAILED
viewpoint is rejected by the status check before any decode work, but
validate_viewpoint_status lets FAILED through, and the tile handler on a
FAILED record proceeds all the way to the tile factory window request. -/
theorem C1_counterexample :
    validate_viewpoint_status ViewpointStatus.FAILED ViewpointApiNames.tile = none ∧
    get_image_tile 0 0 0 sampleFailedViewpoint =
      TileRequestResult.tileRequest [0, 0, 256, 256] (256, 256) := by
  exact ⟨rfl, rfl⟩

/-- C1 amended: the status check rejects exactly DELETED (with the 404
already-deleted rejection) and REQUESTED (with the 400 not-ready rejection);
every other status, FAILED included, passes the check for every operation,
so image-serving operations are not blocked by the status check on a FAILED
viewpoint. -/
theorem C1_status_check_rejects_only_deleted_and_requested :
    ∀ a : ViewpointApiNames,
      validate_viewpoint_status ViewpointStatus.DELETED a =
        some (StatusRejection.alreadyDeleted 404) ∧
      validate_viewpoint_status ViewpointStatus.REQUESTED a =
        some (StatusRejection.notReady 400) ∧
      validate_viewpoint_status ViewpointStatus.FAILED a = none ∧
      validate_viewpoint_status ViewpointStatus.READY a = none ∧
      validate_viewpoint_status ViewpointStatus.UPDATING a = none ∧
      validate_viewpoint_status ViewpointStatus.NOT_FOUND a = none := by
  intro a
  exact ⟨rfl, rfl, rfl, rfl, rfl, rfl⟩

/-- C2 counterexample: a queue message redelivered unchanged still carries
the REQUESTED snapshot in its body, so even when the table record is already
READY the worker runs the download stage again (it does not detect the
duplicate); and in the branch where the body status is not REQUESTED the
worker leaves the message on the queue instead of deleting it. -/
theorem C2_counterexample :
    (process_message (requestedRecord sampleRequest 1700000000)
      ViewpointStatus.READY).downloadAttempted = true ∧
    (process_message sampleReadyViewpoint ViewpointStatus.READY).messageDeleted = false := by
  exact ⟨rfl, rfl⟩

/-- C2 amended: the duplicate check of the worker inspects only the status
snapshot carried in the message body, never the current record: the outcome
is the same whatever the table holds, a body that says REQUESTED is fully
reprocessed, and a body with any other status is skipped with the message
left on the queue (not deleted). -/
theorem C2_worker_checks_message_status_only (body : ViewpointModel)
    (dbStatus dbStatus2 : ViewpointStatus) :
    process_message body dbStatus = process_message body dbStatus2 ∧
    (body.viewpoint_status = ViewpointStatus.REQUESTED →
      process_message body dbStatus = allStagesRun) ∧
    (body.viewpoint_status ≠ ViewpointStatus.REQUESTED →
      process_message body dbStatus = noStageRun) := by
  refine ⟨rfl, ?_, ?_⟩ <;> intro h <;> simp [process_message, h, allStagesRun, noStageRun]

/-- C2 witness: the amended theorem evaluated on a REQUESTED body with a
READY record, and on a READY body. -/
theorem C2_worker_checks_message_status_only_witness :
    process_message (requestedRecord sampleRequest 1700000000)
      ViewpointStatus.READY = allStagesRun ∧
    process_message sampleReadyViewpoint ViewpointStatus.READY = noStageRun := by
  exact ⟨(C2_worker_checks_message_status_only (requestedRecord sampleRequest 1700000000)
      ViewpointStatus.READY ViewpointStatus.READY).2.1 rfl,
    (C2_worker_checks_message_status_only sampleReadyViewpoint
      ViewpointStatus.READY ViewpointStatus.READY).2.2 (by decide)⟩

/-- C3: for a tile request with resolution level z at least 0 against a
record that passes the status check, the source window handed to the tile
factory is [x * t * 2 ** z, y * t * 2 ** z, t * 2 ** z, t * 2 ** z] for tile
size t, with output size t by t. -/
theorem C3_tile_window_math (z x y : Int) (item : ViewpointModel)
    (hz : 0 ≤ z)
    (hs : validate_viewpoint_status item.viewpoint_status ViewpointApiNames.tile = none) :
    get_image_tile z x y item =
      TileRequestResult.tileRequest
        [x * (2 ^ z.toNat * item.tile_size), y * (2 ^ z.toNat * item.tile_size),
          2 ^ z.toNat * item.tile_size, 2 ^ z.toNat * item.tile_size]
        (item.tile_size, item.tile_size) := by
  unfold get_image_tile
  rw [if_neg (not_lt.mpr hz), hs]

/-- C3 witness: the two instances named by the claim, on a READY record with
tile size 256: (z=1, x=0, y=0) requests window [0, 0, 512, 512] resized to
256 by 256, and (z=0, x=2, y=1) requests window [512, 256, 256, 256] whose
size already equals the output size (no resize). -/
theorem C3_tile_window_math_witness :
    get_image_tile 1 0 0 sampleReadyViewpoint =
      TileRequestResult.tileRequest [0, 0, 512, 512] (256, 256) ∧
    get_image_tile 0 2 1 sampleReadyViewpoint =
      TileRequestResult.tileRequest [512, 256, 256, 256] (256, 256) := by
  constructor
  · rw [C3_tile_window_math 1 0 0 sampleReadyViewpoint (by decide) (by decide)]
    decide
  · rw [C3_tile_window_math 0 2 1 sampleReadyViewpoint (by decide) (by decide)]
    decide

/-- C5 counterexample: on a pool whose idle list already holds two handles,
checkout pops handle 10, checkin appends it behind handle 20, and the second
checkout (with no other checkout intervening) returns 20, not the same
handle instance 10. -/
theorem C5_counterexample :
    (checkout (checkin (checkout samplePool).2 (checkout samplePool).1)).1 = 20 ∧
    (checkout samplePool).1 = 10 := by
  exact ⟨rfl, rfl⟩

/-- C5 amended: checkin always appends the handle to the idle list, never
closing or discarding it; the second checkout never opens a new dataset (the
total inventory is unchanged from the first checkout); and it returns the
very same handle instance whenever the idle list was empty after the first
checkout, in particular on a fresh pool. -/
theorem C5_pool_round_trip (p : TileFactoryPool) :
    (checkin (checkout p).2 (checkout p).1).current_inventory =
      (checkout p).2.current_inventory ++ [(checkout p).1] ∧
    (checkin (checkout p).2 (checkout p).1).total_inventory =
      (checkout p).2.total_inventory ∧
    (checkout (checkin (checkout p).2 (checkout p).1)).2.total_inventory =
      (checkout p).2.total_inventory ∧
    ((checkout p).2.current_inventory = [] →
      (checkout (checkin (checkout p).2 (checkout p).1)).1 = (checkout p).1) := by
  rcases p with ⟨inv, total, next⟩
  cases inv with
  | nil => exact ⟨rfl, rfl, rfl, fun _ => rfl⟩
  | cons a rest =>
    cases rest with
    | nil => exact ⟨rfl, rfl, rfl, fun _ => rfl⟩
    | cons b rest2 =>
      refine ⟨rfl, rfl, rfl, ?_⟩
      intro h
      simp [checkout] at h

/-- C5 witness: the amended theorem evaluated on a fresh pool: the round
trip returns the one freshly opened handle again and the total inventory
stays at one. -/
theorem C5_pool_round_trip_witness :
    (checkout (checkin (checkout ⟨[], 0, 0⟩).2 (checkout ⟨[], 0, 0⟩).1)).1 =
      (checkout (⟨[], 0, 0⟩ : TileFactoryPool)).1 ∧
    (checkout (checkin (checkout ⟨[], 0, 0⟩).2 (checkout ⟨[], 0, 0⟩).1)).2.total_inventory =
      (checkout (⟨[], 0, 0⟩ : TileFactoryPool)).2.total_inventory := by
  exact ⟨(C5_pool_round_trip ⟨[], 0, 0⟩).2.2.2 rfl, (C5_pool_round_trip ⟨[], 0, 0⟩).2.2.1⟩

/-- C8 counterexample: the create handler serves a REQUESTED record whose
expire_time is already set (to the creation time plus the configured TTL),
refuting that expire_time is null unless the status is FAILED or DELETED. -/
theorem C8_counterexample :
    (create_viewpoint_handler sampleRequest 1700000000 [] []).body =
      some (requestedRecord sampleRequest 1700000000) ∧
    (requestedRecord sampleRequest 1700000000).viewpoint_status =
      ViewpointStatus.REQUESTED ∧
    (requestedRecord sampleRequest 1700000000).expire_time = some 1700000000 := by
  refine ⟨by decide, rfl, rfl⟩

/-- C8 amended: expire_time is set on every record the create handler
stores (creation time plus TTL, on a REQUESTED record); the delete handler
overwrites it with now plus one day while setting DELETED; the worker
overwrites it with now plus one day when the item is FAILED and otherwise
only flips the status to READY, leaving expire_time as it was; the update
handler also leaves it unchanged.  So expire_time is set when a record
enters FAILED or DELETED, but not only then: it is non-null from creation
on. -/
theorem C8_expire_time_discipline (req : ViewpointRequest) (item : ViewpointModel)
    (upd : ViewpointUpdate) (ts : Int) :
    (requestedRecord req ts).expire_time = some ts ∧
    (requestedRecord req ts).viewpoint_status = ViewpointStatus.REQUESTED ∧
    (item.viewpoint_status = ViewpointStatus.FAILED →
      worker_update_status item ts = { item with expire_time := some ts }) ∧
    (item.viewpoint_status ≠ ViewpointStatus.FAILED →
      worker_update_status item ts =
        { item with viewpoint_status := ViewpointStatus.READY }) ∧
    (validate_viewpoint_status item.viewpoint_status ViewpointApiNames.update = none →
      delete_viewpoint_handler item ts = HandlerResult.ok
        { item with
          viewpoint_status := ViewpointStatus.DELETED
          local_object_path := none
          expire_time := some ts }) ∧
    (validate_viewpoint_status item.viewpoint_status ViewpointApiNames.update = none →
      update_viewpoint_handler item upd = HandlerResult.ok
        { item with
          viewpoint_name := upd.viewpoint_name
          tile_size := upd.tile_size
          range_adjustment := upd.range_adjustment }) := by
  refine ⟨rfl, rfl, ?_, ?_, ?_, ?_⟩
  · intro h
    simp [worker_update_status, h]
  · intro h
    simp [worker_update_status, h]
  · intro h
    simp [delete_viewpoint_handler, h]
  · intro h
    simp [update_viewpoint_handler, h]

/-- C8 witness: the amended theorem evaluated on a FAILED item (expire_time
overwritten), a READY item going through the worker (status becomes READY,
expire_time untouched), and the delete and update handlers on a READY
item. -/
theorem C8_expire_time_discipline_witness :
    worker_update_status sampleFailedViewpoint 42 =
      { sampleFailedViewpoint with expire_time := some 42 } ∧
    worker_update_status sampleReadyViewpoint 42 =
      { sampleReadyViewpoint with viewpoint_status := ViewpointStatus.READY } ∧
    delete_viewpoint_handler sampleReadyViewpoint 42 = HandlerResult.ok
      { sampleReadyViewpoint with
        viewpoint_status := ViewpointStatus.DELETED
        local_object_path := none
        expire_time := some 42 } := by
  have h := C8_expire_time_discipline sampleRequest sampleFailedViewpoint
    { viewpoint_id := "vp1", viewpoint_name := "n", tile_size := 128,
      range_adjustment := RangeAdjustmentType.NONE } 42
  have h2 := C8_expire_time_discipline sampleRequest sampleReadyViewpoint
    { viewpoint_id := "vp1", viewpoint_name := "n", tile_size := 128,
      range_adjustment := RangeAdjustmentType.NONE } 42
  exact ⟨h.2.2.1 rfl, h2.2.2.2.1 (by decide), h2.2.2.2.2.1 (by decide)⟩

/-- C9 counterexample: deleting an id that is absent from the table succeeds
and returns the id like any other delete (the unconditional DynamoDB
DeleteItem raises nothing for an absent key); no NotFound is reported. -/
theorem C9_counterexample :
    delete_viewpoint_store [] "missing" = ("missing", []) ∧
    delete_viewpoint_store [recA] "missing" = ("missing", [recA]) := by
  exact ⟨rfl, by decide⟩

/-- C9 amended: delete removes every stored record under the id (a lookup
afterwards finds nothing) and keeps all other records, and it succeeds
silently when the id is absent, returning the id and leaving the table
unchanged; NotFound is never signalled by delete itself. -/
theorem C9_delete_semantics (table : DdbTable) (id : String) :
    (delete_viewpoint_store table id).1 = id ∧
    get_viewpoint (delete_viewpoint_store table id).2 id = none ∧
    (∀ v ∈ table, v.viewpoint_id ≠ id → v ∈ (delete_viewpoint_store table id).2) ∧
    (get_viewpoint table id = none → (delete_viewpoint_store table id).2 = table) := by
  refine ⟨rfl, ?_, ?_, ?_⟩
  · apply List.find?_eq_none.mpr
    intro x hx
    have hmem := List.mem_filter.mp hx
    simpa using hmem.2
  · intro v hv hne
    exact List.mem_filter.mpr ⟨hv, by simpa using hne⟩
  · intro h
    apply List.filter_eq_self.mpr
    intro a ha
    have := List.find?_eq_none.mp h a ha
    simpa using this

/-- C9 witness: the amended theorem evaluated on a one-record table, both
for the present id and for an absent id. -/
theorem C9_delete_semantics_witness :
    get_viewpoint (delete_viewpoint_store [recA] "a").2 "a" = none ∧
    (delete_viewpoint_store [recA] "missing").2 = [recA] := by
  exact ⟨(C9_delete_semantics [recA] "a").2.1,
    (C9_delete_semantics [recA] "missing").2.2.2 (by decide)⟩

/-- An unconditional put of a record whose key is absent appends the record. -/
theorem put_item_of_absent (table : DdbTable) (item : ViewpointModel)
    (h : get_viewpoint table item.viewpoint_id = none) :
    put_item table item = table ++ [item] := by
  have hany : table.any (fun r => r.viewpoint_id = item.viewpoint_id) = false := by
    rw [List.any_eq_false]
    intro x hx
    simpa using List.find?_eq_none.mp h x hx
  unfold put_item
  simp [hany]

/-- Looking a key up after appending a record with that key to a table where
it was absent finds the appended record. -/
theorem get_viewpoint_append_of_absent (table : DdbTable) (item : ViewpointModel)
    (h : get_viewpoint table item.viewpoint_id = none) :
    get_viewpoint (table ++ [item]) item.viewpoint_id = some item := by
  unfold get_viewpoint at h ⊢
  rw [List.find?_append, h]
  simp

/-- C10: in the create handler the existence check runs before the id
validation: whenever the id already names a stored record the handler
returns 202 with that record, whatever the id looks like, touching neither
table nor queue; and the 422 id rejection can only happen when the id named
no record, again with no persistence. -/
theorem C10_existence_check_precedes_id_validation (req : ViewpointRequest) (ts : Int)
    (table : DdbTable) (queue : List ViewpointModel) :
    (∀ v, get_viewpoint table req.viewpoint_id = some v →
      create_viewpoint_handler req ts table queue =
        { statusCode := 202, body := some v, table := table, queue := queue }) ∧
    ((create_viewpoint_handler req ts table queue).statusCode = 422 →
      get_viewpoint table req.viewpoint_id = none ∧
      validate_viewpoint_id req.viewpoint_id = false ∧
      (create_viewpoint_handler req ts table queue).table = table ∧
      (create_viewpoint_handler req ts table queue).queue = queue) := by
  constructor
  · intro v hv
    unfold create_viewpoint_handler
    rw [hv]
  · intro h
    cases hg : get_viewpoint table req.viewpoint_id with
    | some v =>
      unfold create_viewpoint_handler at h
      rw [hg] at h
      simp at h
    | none =>
      by_cases hid : validate_viewpoint_id req.viewpoint_id
      · unfold create_viewpoint_handler at h
        rw [hg] at h
        simp [hid] at h
      · refine ⟨rfl, by simpa using hid, ?_, ?_⟩ <;>
          (unfold create_viewpoint_handler; rw [hg]; simp [hid])

/-- C10 witness: a stored record under the whitespace-carrying id "bad id"
is returned with 202 by a create call for the same id, even though the id
fails validation. -/
theorem C10_existence_check_precedes_id_validation_witness :
    validate_viewpoint_id "bad id" = false ∧
    create_viewpoint_handler badIdRequest 0 [badIdRecord] [] =
      { statusCode := 202, body := some badIdRecord,
        table := [badIdRecord], queue := [] } := by
  refine ⟨by decide, ?_⟩
  exact (C10_existence_check_precedes_id_validation badIdRequest 0
    [badIdRecord] []).1 badIdRecord (by decide)

/-- C4: creating twice with the same fresh, valid id stores exactly one
record: the first call returns 201 with the new REQUESTED record, appends it
to the table and enqueues it once; the second call returns that very record
with 202 and changes neither the table nor the queue. -/
theorem C4_idempotent_create (req : ViewpointRequest) (ts1 ts2 : Int)
    (table : DdbTable) (queue : List ViewpointModel)
    (habs : get_viewpoint table req.viewpoint_id = none)
    (hid : validate_viewpoint_id req.viewpoint_id = true) :
    create_viewpoint_handler req ts1 table queue =
      { statusCode := 201, body := some (requestedRecord req ts1),
        table := table ++ [requestedRecord req ts1],
        queue := queue ++ [requestedRecord req ts1] } ∧
    ((table ++ [requestedRecord req ts1]).countP
      (fun r => r.viewpoint_id = req.viewpoint_id)) = 1 ∧
    create_viewpoint_handler req ts2 (table ++ [requestedRecord req ts1])
        (queue ++ [requestedRecord req ts1]) =
      { statusCode := 202, body := some (requestedRecord req ts1),
        table := table ++ [requestedRecord req ts1],
        queue := queue ++ [requestedRecord req ts1] } := by
  have hrec : (requestedRecord req ts1).viewpoint_id = req.viewpoint_id := rfl
  refine ⟨?_, ?_, ?_⟩
  · unfold create_viewpoint_handler
    rw [habs]
    simp [hid, put_item_of_absent table (requestedRecord req ts1) habs]
  · rw [List.countP_append]
    have h0 : table.countP (fun r => r.viewpoint_id = req.viewpoint_id) = 0 := by
      rw [List.countP_eq_zero]
      intro a ha
      simpa using List.find?_eq_none.mp habs a ha
    rw [h0]
    simp [List.countP_cons, hrec]
  · have hsome := get_viewpoint_append_of_absent table (requestedRecord req ts1) habs
    rw [hrec] at hsome
    unfold create_viewpoint_handler
    rw [hsome]

/-- C4 witness: the idempotent-create theorem evaluated on an empty table
and queue with the sample request. -/
theorem C4_idempotent_create_witness :
    create_viewpoint_handler sampleRequest 100 [] [] =
      { statusCode := 201, body := some (requestedRecord sampleRequest 100),
        table := [requestedRecord sampleRequest 100],
        queue := [requestedRecord sampleRequest 100] } ∧
    create_viewpoint_handler sampleRequest 200 [requestedRecord sampleRequest 100]
        [requestedRecord sampleRequest 100] =
      { statusCode := 202, body := some (requestedRecord sampleRequest 100),
        table := [requestedRecord sampleRequest 100],
        queue := [requestedRecord sampleRequest 100] } := by
  have h := C4_idempotent_create sampleRequest 100 200 [] [] (by decide) (by decide)
  exact ⟨by simpa using h.1, by simpa using h.2.2⟩

/-- The dropWhile of a surrounding-whitespace strip does nothing when the
ends of the string are not whitespace. -/
theorem pyStrip_eq_self_of_ends (s : String)
    (h1 : ∀ c ∈ s.data.head?, isPythonWhitespace c = false)
    (h2 : ∀ c ∈ s.data.getLast?, isPythonWhitespace c = false) :
    pyStrip s = s := by
  have hd : s.data.dropWhile isPythonWhitespace = s.data := by
    cases hs : s.data with
    | nil => rfl
    | cons c l =>
      have hc : isPythonWhitespace c = false := h1 c (by simp [hs])
      simp [List.dropWhile_cons, hc]
  have hr : s.data.reverse.dropWhile isPythonWhitespace = s.data.reverse := by
    cases hs : s.data.reverse with
    | nil => rfl
    | cons d m =>
      have hdm : s.data.getLast? = some d := by
        rw [List.getLast?_eq_head?_reverse, hs]
        rfl
      have hwd : isPythonWhitespace d = false := h2 d (by simp [hdm])
      simp [hs, List.dropWhile_cons, hwd]
  unfold pyStrip
  rw [hd, hr, List.reverse_reverse]

/-- The wrapped S3 error message is left unchanged by the strip whenever the
appended detail ends in an exclamation mark: the message starts with a
letter and ends with that mark. -/
theorem pyStrip_wrapped_message (e mid : String)
    (hmid : mid.data.getLast? = some '!') :
    pyStrip ("Image Tile Server cannot process your S3 request! Error=" ++ e
        ++ " " ++ mid) =
      "Image Tile Server cannot process your S3 request! Error=" ++ e ++ " " ++ mid := by
  apply pyStrip_eq_self_of_ends
  · intro c hc
    have hh : ("Image Tile Server cannot process your S3 request! Error=" ++ e
        ++ " " ++ mid).data.head? = some 'I' := rfl
    rw [hh] at hc
    simp only [Option.mem_def, Option.some.injEq] at hc
    rw [← hc]
    rfl
  · intro c hc
    have hl : ("Image Tile Server cannot process your S3 request! Error=" ++ e
        ++ " " ++ mid).data.getLast? = some '!' := by
      simp only [String.data_append, List.getLast?_append]
      rw [hmid]
      rfl
    rw [hl] at hc
    simp only [Option.mem_def, Option.some.injEq] at hc
    rw [← hc]
    rfl

/-- The exact message produced for a storage 404: the wrapper plus the
bucket-does-not-exist phrase, with nothing stripped. -/
theorem clientErrorMessage_404_eq (bucket e : String) :
    clientErrorMessage bucket "404" e =
      "Image Tile Server cannot process your S3 request! Error=" ++ e ++ " " ++
        ("The " ++ bucket ++ " bucket does not exist!") := by
  have h := pyStrip_wrapped_message e ("The " ++ bucket ++ " bucket does not exist!")
    (by simp only [String.data_append, List.getLast?_append]; rfl)
  exact h

/-- The exact message produced for a storage 403: the wrapper plus the
permission phrase, with nothing stripped. -/
theorem clientErrorMessage_403_eq (bucket e : String) :
    clientErrorMessage bucket "403" e =
      "Image Tile Server cannot process your S3 request! Error=" ++ e ++ " " ++
        ("You do not have permission to access " ++ bucket ++ " bucket!") := by
  have h := pyStrip_wrapped_message e
    ("You do not have permission to access " ++ bucket ++ " bucket!")
    (by simp only [String.data_append, List.getLast?_append]; rfl)
  exact h

/-- The 404 message ends in the bucket-does-not-exist phrase, whatever the
bucket name and the exception text. -/
theorem message_404_contains_phrase (bucket e : String) :
    (" bucket does not exist!" : String).data <:+
      (clientErrorMessage bucket "404" e).data := by
  rw [clientErrorMessage_404_eq]
  refine ⟨("Image Tile Server cannot process your S3 request! Error=" ++ e ++ " "
    ++ ("The " ++ bucket)).data, ?_⟩
  simp [String.data_append, List.append_assoc]

/-- The 403 message carries the permission phrase, whatever the bucket name
and the exception text. -/
theorem message_403_contains_phrase (bucket e : String) :
    ("You do not have permission to access " : String).data <:+:
      (clientErrorMessage bucket "403" e).data := by
  rw [clientErrorMessage_403_eq]
  refine ⟨("Image Tile Server cannot process your S3 request! Error=" ++ e
    ++ " ").data, (bucket ++ " bucket!").data, ?_⟩
  simp [String.data_append, List.append_assoc]

/-- C7 counterexample: a storage ClientError whose code is neither 404 nor
403 (here a 500) is not retried even though the next attempt would succeed:
the download stops at once with FAILED and the generic wrapped message,
where the claim asks for a retry ending in a clean success. -/
theorem C7_counterexample :
    download_s3_file_to_local_tmp "bucket" "vp1" retriableThenSuccess =
      (some ViewpointStatus.FAILED,
        some "Image Tile Server cannot process your S3 request! Error=boom") ∧
    download_s3_file_to_local_tmp "bucket" "vp1" retriableThenSuccess ≠
      (none, none) := by
  exact ⟨by decide, by decide⟩

/-- C7 amended: the download makes at most 3 attempts (the outcome depends
only on the first three attempt results); a first-attempt success returns
with status and message unset; EVERY storage ClientError, whatever its
code, stops immediately with FAILED carrying the wrapped client message,
which for 404 ends in a phrase that the bucket does not exist and for 403
carries a permission phrase; only non-ClientError exceptions are retried,
a success on the second attempt after one such error still returns unset
status and message, and three such failures return FAILED with the generic
message of the third attempt. -/
theorem C7_download_retry_policy (bucket vid : String) (events : Nat → S3Event) :
    (∀ events2 : Nat → S3Event, (∀ i, i < 3 → events2 i = events i) →
      download_s3_file_to_local_tmp bucket vid events2 =
        download_s3_file_to_local_tmp bucket vid events) ∧
    (events 0 = S3Event.success →
      download_s3_file_to_local_tmp bucket vid events = (none, none)) ∧
    (∀ code errText, events 0 = S3Event.clientError code errText →
      download_s3_file_to_local_tmp bucket vid events =
        (some ViewpointStatus.FAILED, some (clientErrorMessage bucket code errText))) ∧
    (∀ e, (" bucket does not exist!" : String).data <:+
      (clientErrorMessage bucket "404" e).data) ∧
    (∀ e, ("You do not have permission to access " : String).data <:+:
      (clientErrorMessage bucket "403" e).data) ∧
    (∀ e0, events 0 = S3Event.otherError e0 → events 1 = S3Event.success →
      download_s3_file_to_local_tmp bucket vid events = (none, none)) ∧
    (∀ e0 e1 e2, events 0 = S3Event.otherError e0 → events 1 = S3Event.otherError e1 →
      events 2 = S3Event.otherError e2 →
      download_s3_file_to_local_tmp bucket vid events =
        (some ViewpointStatus.FAILED, some (genericErrorMessage vid 2 3 e2))) := by
  refine ⟨?_, ?_, ?_, message_404_contains_phrase bucket,
    message_403_contains_phrase bucket, ?_, ?_⟩
  · intro ev2 hev
    have h0 := hev 0 (by norm_num)
    have h1 := hev 1 (by norm_num)
    have h2 := hev 2 (by norm_num)
    cases he0 : events 0 with
    | success => simp only [download_s3_file_to_local_tmp, downloadLoop, h0, he0]
    | clientError c e => simp only [download_s3_file_to_local_tmp, downloadLoop, h0, he0]
    | otherError e =>
      cases he1 : events 1 with
      | success =>
        simp only [download_s3_file_to_local_tmp, downloadLoop, h0, he0, h1, he1]
      | clientError c e1 =>
        simp only [download_s3_file_to_local_tmp, downloadLoop, h0, he0, h1, he1]
      | otherError e1 =>
        cases he2 : events 2 with
        | success =>
          simp only [download_s3_file_to_local_tmp, downloadLoop, h0, he0, h1, he1, h2, he2]
        | clientError c e2 =>
          simp only [download_s3_file_to_local_tmp, downloadLoop, h0, he0, h1, he1, h2, he2]
        | otherError e2 =>
          simp only [download_s3_file_to_local_tmp, downloadLoop, h0, he0, h1, he1, h2, he2]
  · intro h
    simp only [download_s3_file_to_local_tmp, downloadLoop, h]
  · intro code errText h
    simp only [download_s3_file_to_local_tmp, downloadLoop, h]
  · intro e0 h0 h1
    simp only [download_s3_file_to_local_tmp, downloadLoop, h0, h1]
  · intro e0 e1 e2 h0 h1 h2
    simp only [download_s3_file_to_local_tmp, downloadLoop, h0, h1, h2]

/-- C7 witness: the amended theorem evaluated on all-404 attempts and on
all-successful attempts. -/
theorem C7_download_retry_policy_witness :
    download_s3_file_to_local_tmp "mybucket" "vp1" always404 =
      (some ViewpointStatus.FAILED, some (clientErrorMessage "mybucket" "404" "oops")) ∧
    download_s3_file_to_local_tmp "mybucket" "vp1" alwaysSuccess = (none, none) := by
  exact ⟨(C7_download_retry_policy "mybucket" "vp1" always404).2.2.1 "404" "oops" rfl,
    (C7_download_retry_policy "mybucket" "vp1" alwaysSuccess).2.1 rfl⟩

/-- The records after an ExclusiveStartKey are a suffix of the table. -/
theorem afterKey_suffix (tok : Option String) (table : DdbTable) :
    afterKey tok table <:+ table := by
  cases tok with
  | none => exact List.suffix_refl table
  | some k => exact (List.drop_suffix 1 _).trans (List.dropWhile_suffix _)

/-- Resuming after the key of an item whose key appears nowhere earlier in
the table yields exactly the items after that item. -/
theorem afterKey_of_append (pre : DdbTable) (x : ViewpointModel) (rest : DdbTable)
    (hx : x.viewpoint_id ∉ pre.map (fun r => r.viewpoint_id)) :
    afterKey (some x.viewpoint_id) (pre ++ x :: rest) = rest := by
  induction pre with
  | nil =>
    show ((x :: rest).dropWhile (fun r => r.viewpoint_id ≠ x.viewpoint_id)).drop 1 = rest
    rw [List.dropWhile_cons]
    simp
  | cons a pre ih =>
    have ha : a.viewpoint_id ≠ x.viewpoint_id := by
      intro h
      exact hx (by simp [← h])
    have hpre : x.viewpoint_id ∉ pre.map (fun r => r.viewpoint_id) := by
      intro h
      exact hx (by simp [h])
    show ((a :: (pre ++ x :: rest)).dropWhile
      (fun r => r.viewpoint_id ≠ x.viewpoint_id)).drop 1 = rest
    rw [List.dropWhile_cons, if_pos (by simp [ha])]
    exact ih hpre

/-- One paged call of the list endpoint: the page is the filter applied to
the first k scanned records, and the continuation token is the key of the
last scanned record exactly when records remain beyond the page. -/
theorem get_viewpoints_paged_eq (table : DdbTable) (k : Nat) (hk0 : k ≠ 0)
    (tok : Option String) :
    get_viewpoints table (some k) tok =
      { items := ((afterKey tok table).take k).filter notDeleted
        next_token :=
          if k < (afterKey tok table).length then
            ((afterKey tok table).take k).getLast?.map (fun r => r.viewpoint_id)
          else none } := by
  simp [get_viewpoints, hk0, get_paged_viewpoints, ddb_scan]

/-- When a paged call returns a continuation token, resuming from that token
scans exactly the records after the k already scanned (uniqueness of keys is
what ties the token back to its position). -/
theorem afterKey_resumes_after_page (table : DdbTable) (k : Nat) (hk : 0 < k)
    (hn : (table.map (fun r => r.viewpoint_id)).Nodup) (tok : Option String) (t : String)
    (h : (get_viewpoints table (some k) tok).next_token = some t) :
    afterKey (some t) table = (afterKey tok table).drop k := by
  have hk0 : k ≠ 0 := Nat.pos_iff_ne_zero.mp hk
  rw [get_viewpoints_paged_eq table k hk0 tok] at h
  by_cases hlt : k < (afterKey tok table).length
  · rw [if_pos hlt] at h
    rcases Option.map_eq_some'.mp h with ⟨x, hx, hxt⟩
    have hxl := List.dropLast_append_getLast? x hx
    obtain ⟨pre, hpre⟩ := afterKey_suffix tok table
    obtain ⟨dl, hdl⟩ : ∃ dl, ((afterKey tok table).take k).dropLast = dl := ⟨_, rfl⟩
    obtain ⟨dr, hdr⟩ : ∃ dr, (afterKey tok table).drop k = dr := ⟨_, rfl⟩
    have h1 : afterKey tok table = dl ++ x :: dr := by
      conv_lhs => rw [← List.take_append_drop k (afterKey tok table)]
      rw [← hxl, hdl, hdr]
      simp
    have htab : table = (pre ++ dl) ++ x :: dr := by
      calc table = pre ++ afterKey tok table := hpre.symm
        _ = _ := by rw [h1]; simp
    have hn2 := hn
    rw [htab, List.map_append, List.map_cons] at hn2
    have hdisj := (List.nodup_append.mp hn2).2.2
    have hnot : x.viewpoint_id ∉ (pre ++ dl).map (fun r => r.viewpoint_id) := by
      intro hmem
      exact hdisj hmem (by simp)
    rw [← hxt, hdr]
    conv_lhs => rw [htab]
    exact afterKey_of_append _ x _ hnot
  · rw [if_neg hlt] at h
    simp at h

/-- Driving the paged list endpoint from any token with enough fuel yields
the filtered remainder of the table. -/
theorem pagedLoop_filter (table : DdbTable) (k : Nat) (hk : 0 < k)
    (hn : (table.map (fun r => r.viewpoint_id)).Nodup) :
    ∀ (fuel : Nat) (tok : Option String), (afterKey tok table).length ≤ fuel →
      pagedLoop table k fuel tok = (afterKey tok table).filter notDeleted := by
  have hk0 : k ≠ 0 := Nat.pos_iff_ne_zero.mp hk
  intro fuel
  induction fuel with
  | zero =>
    intro tok hlen
    have hempty : afterKey tok table = [] :=
      List.length_eq_zero.mp (Nat.le_zero.mp hlen)
    simp [pagedLoop, hempty]
  | succ fuel ih =>
    intro tok hlen
    cases hnt : (get_viewpoints table (some k) tok).next_token with
    | none =>
      simp only [pagedLoop, hnt]
      rw [get_viewpoints_paged_eq table k hk0 tok] at hnt ⊢
      by_cases hlt : k < (afterKey tok table).length
      · rw [if_pos hlt] at hnt
        rcases Option.map_eq_none'.mp hnt with hgl
        have hne : (afterKey tok table).take k ≠ [] := by
          apply List.ne_nil_of_length_pos
          simp [List.length_take]
          omega
        have hissome := List.getLast?_isSome.mpr hne
        rw [hgl] at hissome
        simp at hissome
      · show ((afterKey tok table).take k).filter notDeleted =
          (afterKey tok table).filter notDeleted
        rw [List.take_of_length_le (Nat.le_of_not_lt hlt)]
    | some t =>
      simp only [pagedLoop, hnt]
      have hak := afterKey_resumes_after_page table k hk hn tok t hnt
      have hitems : (get_viewpoints table (some k) tok).items =
          ((afterKey tok table).take k).filter notDeleted := by
        rw [get_viewpoints_paged_eq table k hk0 tok]
      have hlen2 : (afterKey (some t) table).length ≤ fuel := by
        rw [hak]
        simp [List.length_drop]
        omega
      rw [ih (some t) hlen2, hak, hitems, ← List.filter_append,
        List.take_append_drop]

/-- C6 counterexample: on the table [a READY, b DELETED, c DELETED] a page
of limit 1 resumed after a returns no records at all together with a
continuation token (so the token is not the id of any returned record) even
though no non-DELETED record remains to be listed. -/
theorem C6_counterexample :
    (get_viewpoints [recA, recB, recC] (some 1) (some "a")).next_token = some "b" ∧
    (get_viewpoints [recA, recB, recC] (some 1) (some "a")).items = [] ∧
    (afterKey (some "a") [recA, recB, recC]).filter notDeleted = [] := by
  exact ⟨by decide, by decide, by decide⟩

/-- C6 amended: with unique ids, repeatedly listing with a positive limit k
and feeding each returned token into the next call yields exactly the
non-DELETED records of the single unlimited listing, in the same order; a
continuation token is returned exactly when scanned records, deleted ones
included, remain past the current page, and the token is the id of the last
scanned record, which need not belong to any returned record. -/
theorem C6_pagination_exhaustive (table : DdbTable) (k : Nat) (hk : 0 < k)
    (hn : (table.map (fun r => r.viewpoint_id)).Nodup) :
    pagedLoop table k (table.length + 1) none = (get_viewpoints table none none).items ∧
    (∀ tok, ((get_viewpoints table (some k) tok).next_token.isSome = true ↔
      k < (afterKey tok table).length)) := by
  have hk0 : k ≠ 0 := Nat.pos_iff_ne_zero.mp hk
  constructor
  · rw [pagedLoop_filter table k hk hn (table.length + 1) none (by simp [afterKey])]
    simp [get_viewpoints, get_all_viewpoints, ddb_scan, afterKey]
  · intro tok
    rw [get_viewpoints_paged_eq table k hk0 tok]
    by_cases hlt : k < (afterKey tok table).length
    · have hne : (afterKey tok table).take k ≠ [] := by
        apply List.ne_nil_of_length_pos
        simp [List.length_take]
        omega
      simp [hlt, hne]
    · simp [hlt]

/-- C6 witness: the amended theorem evaluated on the three-record table with
limit 1: paging collects exactly the one non-DELETED record, as the
unlimited listing does. -/
theorem C6_pagination_exhaustive_witness :
    pagedLoop [recA, recB, recC] 1 4 none =
      (get_viewpoints [recA, recB, recC] none none).items ∧
    (get_viewpoints [recA, recB, recC] none none).items = [recA] := by
  have h := C6_pagination_exhaustive [recA, recB, recC] 1 (by decide) (by decide)
  exact ⟨h.1, by decide⟩

end TileServer
